import Mathlib

/-!
Verification of the ethermail-client batch account-creation service.

The definitions below are a shallow embedding of the Python source:
  - `core/task_manager.py` : `TaskStatus`, `RegistrationTask`, `TaskManager`
  - `core/routes/ether.py` : `register_account`, `process_registration_task`,
    `create_accounts`, `create_account`, `get_task_status`
  - `core/api_client.py`   : `set_auth_token`, `_request` (with its tenacity
    retry decorator), `get_nonce`, `create_signature`, `onboarding`
  - `core/schemas.py`      : `CreateMultipleAccountsRequest`, `TaskStatusResponse`

Python `int` is modelled as `Int`; exceptions escaping a function are modelled
with `Except` / an explicit `Option PyExc` component; the remote HTTP service,
the randomness of `random.shuffle` / `random.sample`, and the wallet generator
are oracles passed in as parameters.
-/

namespace Ethermail

/-- Python exceptions the embedded code can raise. Every constructor models a
class deriving from Python's `Exception`, so tenacity's
`retry_if_exception_type(Exception)` predicate holds of all of them. -/
inductive PyExc where
  | attributeError (attr : String)
  | typeError (msg : String)
  | valueError (msg : String)
  | timeoutException
  | connectError
  | registrationError (msg : String)
  | retryError (last : PyExc)
  | exception (msg : String)
deriving DecidableEq, Repr

/-- `TaskStatus` enum (task_manager.py lines 8-12). The `failed` member exists
but is never assigned anywhere in the source. -/
inductive TaskStatus where
  | pending
  | in_progress
  | completed
  | failed
deriving DecidableEq, Repr

/-- `.value` of the Python enum members. -/
def TaskStatus.value : TaskStatus → String
  | .pending => "pending"
  | .in_progress => "in_progress"
  | .completed => "completed"
  | .failed => "failed"

/-- One successful per-item result dict as appended by `register_account`
(ether.py lines 62-66): `{"id": ..., "wallet_address": ..., "token": ...}`. -/
structure AccountResult where
  id : Int
  wallet_address : String
  token : String
deriving DecidableEq, Repr

/-- `RegistrationTask` (task_manager.py lines 15-24). `__init__` sets exactly
the fields below; in particular it never sets a `delay_sec` attribute, so any
later read of `task.delay_sec` raises `AttributeError`. `created_at` is the
`datetime.utcnow()` timestamp, modelled as seconds. -/
structure RegistrationTask where
  proxies : List String
  count : Int
  status : TaskStatus
  created_at : Int
  completed_count : Int
  failed_count : Int
  results : List AccountResult
  errors : List String
deriving DecidableEq, Repr

/-- `RegistrationTask.__init__(proxies, count)`. -/
def RegistrationTask.init (proxies : List String) (count : Int) (now : Int) :
    RegistrationTask :=
  { proxies := proxies
    count := count
    status := TaskStatus.pending
    created_at := now
    completed_count := 0
    failed_count := 0
    results := []
    errors := [] }

/-- `TaskManager` (task_manager.py lines 27-39): a dict of tasks plus a
monotone counter. The dict is modelled as an association list with
replace-on-existing-key update semantics. -/
structure TaskManager where
  tasks : List (String × RegistrationTask)
  task_counter : Nat
deriving DecidableEq, Repr

/-- `self.tasks[task_id] = t` dict assignment: replace the entry if the key is
present, otherwise append. -/
def dictSet : List (String × RegistrationTask) → String → RegistrationTask →
    List (String × RegistrationTask)
  | [], k, v => [(k, v)]
  | (k', v') :: rest, k, v =>
    if k' = k then (k, v) :: rest else (k', v') :: dictSet rest k v

def TaskManager.set (mgr : TaskManager) (task_id : String)
    (t : RegistrationTask) : TaskManager :=
  { mgr with tasks := dictSet mgr.tasks task_id t }

/-- `TaskManager.create_task(self, proxies, count=1)` (task_manager.py lines
32-36). Note the Python signature accepts only `proxies` and `count`; there is
no delay parameter. -/
def TaskManager.create_task (mgr : TaskManager) (proxies : List String)
    (count : Int) (now : Int) : TaskManager × String :=
  let c := mgr.task_counter + 1
  let task_id := "task_" ++ toString c
  ({ tasks := dictSet mgr.tasks task_id (RegistrationTask.init proxies count now)
     task_counter := c },
   task_id)

/-- `TaskManager.get_task` (task_manager.py lines 38-39): `self.tasks.get(id)`. -/
def TaskManager.get_task (mgr : TaskManager) (task_id : String) :
    Option RegistrationTask :=
  (mgr.tasks.find? (fun p => p.1 = task_id)).map Prod.snd

theorem get_task_dictSet (l : List (String × RegistrationTask)) (k : String)
    (v : RegistrationTask) :
    ((dictSet l k v).find? (fun p => p.1 = k)).map Prod.snd = some v := by
  induction l with
  | nil => simp [dictSet, List.find?]
  | cons hd tl ih =>
    by_cases h : hd.1 = k
    · simp [dictSet, h, List.find?]
    · simp only [dictSet]
      rw [if_neg h]
      simp only [List.find?]
      have : (decide (hd.1 = k)) = false := by simpa using h
      rw [this]
      exact ih

theorem get_task_set (mgr : TaskManager) (task_id : String)
    (t : RegistrationTask) : (mgr.set task_id t).get_task task_id = some t := by
  simp [TaskManager.set, TaskManager.get_task, get_task_dictSet]

theorem create_task_get (mgr : TaskManager) (proxies : List String)
    (count : Int) (now : Int) :
    (mgr.create_task proxies count now).1.get_task
        (mgr.create_task proxies count now).2 =
      some (RegistrationTask.init proxies count now) := by
  simp [TaskManager.create_task, TaskManager.get_task, get_task_dictSet]

/-- A failure observable at the HTTP route boundary. `validationError` is the
FastAPI/pydantic request-validation rejection (HTTP 422) fired before the
handler runs; `httpException` is an explicitly raised `HTTPException`;
`unhandled` is a Python exception escaping the handler (HTTP 500). -/
inductive HttpFail where
  | validationError
  | httpException (status : Nat) (detail : String)
  | unhandled (e : PyExc)
deriving DecidableEq, Repr

/-- `CreateMultipleAccountsRequest` (schemas.py lines 9-11). It declares
exactly the fields `proxies` and `count` (`count` constrained `gt=0`); there is
no `delay_sec` field, so `request.delay_sec` raises `AttributeError`. -/
structure CreateMultipleAccountsRequest where
  proxies : List String
  count : Int
deriving DecidableEq, Repr

/-- `POST /create_accounts` handler (ether.py lines 112-125), including the
pydantic validation of its request model. After the two explicit checks, line
122 evaluates `request.delay_sec` while building the arguments of
`task_manager.create_task(request.proxies, request.count, request.delay_sec)`.
`CreateMultipleAccountsRequest` (schemas.py lines 9-11) declares no such field,
so the handler raises `AttributeError` before `create_task` is ever entered
(and `create_task`, task_manager.py lines 32-36, accepts no third argument
anyway): no task is created and the store is unchanged. -/
def create_accounts (mgr : TaskManager)
    (request : CreateMultipleAccountsRequest) :
    Except HttpFail (TaskManager × String) :=
  if request.count ≤ 0 then
    Except.error HttpFail.validationError
  else if request.proxies = [] then
    Except.error (HttpFail.httpException 400 "No proxies provided")
  else if request.count > (request.proxies.length : Int) then
    Except.error
      (HttpFail.httpException 400 "Not enough proxies for requested account count")
  else
    Except.error (HttpFail.unhandled (PyExc.attributeError "delay_sec"))

/-- `POST /create_account` handler (ether.py lines 135-141):
`task_manager.create_task([request.proxy], 1)` then schedules
`process_registration_task` in the background and returns the task id. -/
def create_account (mgr : TaskManager) (proxy : String) (now : Int) :
    TaskManager × String :=
  mgr.create_task [proxy] 1 now

/-- `process_registration_task` (ether.py lines 72-102), run until it either
finishes or a Python exception escapes. `shuffled` is the contents of the list
after line 95's in-place `random.shuffle(proxies_for_reg)`: because
`proxies_for_reg = task.proxies` merely aliases the stored list, the shuffle
reorders `task.proxies` itself (theorems about this embedding constrain
`shuffled` to be a permutation of the stored proxies).

The loop at lines 97-99 appends `register_with_proxy(proxies_for_reg[i], i,
task.delay_sec)` for each `i < count` with `i < len(proxies_for_reg)`.
Evaluating `task.delay_sec` raises `AttributeError`: `RegistrationTask.__init__`
(task_manager.py lines 15-24) never sets that attribute. So whenever at least
one loop iteration passes the length guard (count ≥ 1 and the shuffled list
nonempty), the function dies after mutating `status` to IN_PROGRESS and
shuffling the stored proxies; otherwise the loop builds no coroutine, the
empty `gather` returns, and the task is marked COMPLETED. The returned pair is
the task store after the call and the exception that escaped, if any. -/
def process_registration_task (mgr : TaskManager) (task_id : String)
    (shuffled : List String) : TaskManager × Option PyExc :=
  match mgr.get_task task_id with
  | none => (mgr, none)
  | some task =>
    let task1 := { task with status := TaskStatus.in_progress
                             proxies := shuffled }
    if 0 < task1.count ∧ shuffled ≠ [] then
      (mgr.set task_id task1, some (PyExc.attributeError "delay_sec"))
    else
      (mgr.set task_id { task1 with status := TaskStatus.completed }, none)

/-- `TaskStatusResponse` (schemas.py lines 21-29). -/
structure TaskStatusResponse where
  status : String
  created_at : Int
  total : Int
  completed : Int
  failed : Int
  in_progress : Int
  results : Option (List AccountResult)
  errors : Option (List String)
deriving DecidableEq, Repr

/-- `GET /task/{task_id}` handler (ether.py lines 151-165). -/
def get_task_status (mgr : TaskManager) (task_id : String) :
    Except HttpFail TaskStatusResponse :=
  match mgr.get_task task_id with
  | none => Except.error (HttpFail.httpException 404 "Task not found")
  | some task =>
    Except.ok
      { status := task.status.value
        created_at := task.created_at
        total := task.count
        completed := task.completed_count
        failed := task.failed_count
        in_progress := task.count - (task.completed_count + task.failed_count)
        results :=
          if task.status = TaskStatus.completed then some task.results else none
        errors := if task.errors = [] then none else some task.errors }

/-- The fields of the persisted `EtherMailAccount` row that
`api_client.set_auth_token` reads or writes. -/
structure EtherMailAccountRec where
  wallet_address : String
  private_key : String
  jwt_token : String
  last_used : Int
deriving DecidableEq, Repr

/-- Observable result of a completed `set_auth_token` call: whether the
refresh branch ran, the cookie header installed, and the (possibly updated)
account row handed back to the store. -/
structure SetAuthResult where
  refreshed : Bool
  cookie : String
  account : Option EtherMailAccountRec
deriving DecidableEq, Repr

/-- `EthermailAPI.set_auth_token` (api_client.py lines 89-125).

`exp?` is the unverified `exp` claim obtained from
`jwt.decode(token, options={"verify_signature": False})` — `none` when the
claim is absent. Python's falsy test `if not exp_timestamp` also rejects an
`exp` equal to `0`. `now` is `datetime.now(timezone.utc)` in seconds, so
`time_left.total_seconds() = exp - now`. The refresh branch
(`time_left < 3600`) first evaluates `account.wallet_address`, which raises
`AttributeError` when `account` is `None` (as in `register_account`'s call,
ether.py line 40); otherwise it re-authenticates — `newToken` is the token
the remote `register` call returns — stores it on the account row, commits,
and installs it in the cookie. -/
def set_auth_token (now : Int) (exp? : Option Int) (token : String)
    (newToken : String) (account : Option EtherMailAccountRec) :
    Except PyExc SetAuthResult :=
  match exp? with
  | none => Except.error (PyExc.exception "Invalid token format: no expiration time")
  | some e =>
    if e = 0 then
      Except.error (PyExc.exception "Invalid token format: no expiration time")
    else if e - now < 3600 then
      match account with
      | none => Except.error (PyExc.attributeError "wallet_address")
      | some acc =>
        Except.ok
          { refreshed := true
            cookie := "token=" ++ newToken ++ ";"
            account := some { acc with jwt_token := newToken, last_used := now } }
    else
      Except.ok { refreshed := false
                  cookie := "token=" ++ token ++ ";"
                  account := account }

/-- Outcome of one physical HTTP send inside `_request`: a transport failure
or a response with a status code and a body that does or does not parse as
JSON. -/
inductive HttpOutcome where
  | timeout
  | connectErr
  | response (code : Nat) (validJson : Bool) (body : String)
deriving DecidableEq, Repr

/-- One attempt of the body of `EthermailAPI._request` (api_client.py lines
136-171): `raise_for_status` turns a non-2xx status into `httpx.HTTPStatusError`,
which the handler converts to `RegistrationError("HTTP <code>: <body>")`; a
2xx body that fails `response.json()` becomes
`RegistrationError("Invalid JSON response")`; timeouts and connection errors
are re-raised as themselves. The `ok` value is the body of a 2xx JSON
response. -/
def _requestOnce : HttpOutcome → Except PyExc String
  | HttpOutcome.timeout => Except.error PyExc.timeoutException
  | HttpOutcome.connectErr => Except.error PyExc.connectError
  | HttpOutcome.response code validJson body =>
    if 200 ≤ code ∧ code < 300 then
      if validJson then Except.ok body
      else Except.error (PyExc.registrationError "Invalid JSON response")
    else
      Except.error
        (PyExc.registrationError ("HTTP " ++ toString code ++ ": " ++ body))

/-- The retry predicate shared by every decorator in api_client.py:
`retry_if_exception_type((TimeoutException, ConnectError, Exception))` on
`_request` and `retry_if_exception_type(Exception)` on the public methods.
Both are `isinstance` checks against a tuple containing `Exception`, and every
exception the embedded code raises (including `RegistrationError` and
tenacity's own `RetryError`) derives from `Exception`, so the predicate is
true of every raised error. -/
def broadRetryPredicate (e : PyExc) : Bool := true

/-- The tenacity `@retry(stop=stop_after_attempt(n), ...)` loop. `f i` runs
one attempt starting at global attempt index `i` and returns its result
together with the next free index (an inner retrying call may consume several
indices). After a failed attempt tenacity consults the retry predicate — a
non-matching exception propagates as is — and the stop condition: once `n`
attempts have run, a `RetryError` wrapping the last exception is raised
(tenacity's default `reraise=False`). -/
def retryCallSt (pred : PyExc → Bool)
    (f : Nat → Except PyExc α × Nat) :
    Nat → Nat → Except PyExc α × Nat
  | 0, i => (Except.error (PyExc.retryError (PyExc.exception "no attempt ran")), i)
  | Nat.succ b, i =>
    match f i with
    | (Except.ok a, j) => (Except.ok a, j)
    | (Except.error e, j) =>
      if pred e then
        if b = 0 then (Except.error (PyExc.retryError e), j)
        else retryCallSt pred f b j
      else (Except.error e, j)

/-- `_request` with its decorator: up to 3 attempts, each consuming one
outcome from the oracle; attempts start at index `start`. The second component
is the next unconsumed oracle index, i.e. the total number of physical HTTP
attempts made so far. -/
def _requestRun (oracle : Nat → HttpOutcome) (start : Nat) :
    Except PyExc String × Nat :=
  retryCallSt broadRetryPredicate (fun i => (_requestOnce (oracle i), i + 1)) 3 start

/-- `get_nonce` (api_client.py lines 231-247) with its own decorator: the body
calls `self._request(...)` once and its `except` clause re-raises whatever
escapes, so the method-level `@retry(stop=stop_after_attempt(3), ...)` runs the
whole `_request` retry cycle up to 3 times. The `ok` value stands for the
parsed `(success, nonce)` body. -/
def get_nonceRun (oracle : Nat → HttpOutcome) : Except PyExc String × Nat :=
  retryCallSt broadRetryPredicate (fun i => _requestRun oracle i) 3 0

/-- `eth_utils.to_bytes(text=s)`: the UTF-8 encoding of a string, as byte
values. -/
def utf8Bytes (s : String) : List Nat :=
  s.toUTF8.toList.map (fun b => b.toNat)

/-- Lower-case hex digit of a value below 16, as produced by Python hex
formatting. -/
def hexDigitChar (n : Nat) : Char :=
  if n < 10 then Char.ofNat (48 + n) else Char.ofNat (87 + n)

def byteToHex (b : Nat) : String :=
  String.mk [hexDigitChar (b / 16 % 16), hexDigitChar (b % 16)]

/-- `eth_utils.to_hex(bytes)`: `"0x"` followed by two lower-case hex digits
per byte. -/
def toHexPy (bs : List Nat) : String :=
  "0x" ++ String.join (bs.map byteToHex)

/-- `EthermailAPI.create_signature(private_key, message)` (api_client.py lines
211-229), a `@staticmethod` that reads no instance state. The two external
primitives are passed as function parameters: `keccak` is `eth_utils.keccak`
(keccak-256 over bytes) and `signHash` is `eth_account.Account._sign_hash`
composed with `.signature` (recoverable secp256k1 ECDSA over a 32-byte hash,
deterministic per RFC 6979). The body mirrors the source line by line:
encode the message as UTF-8, build the string
`"\x19Ethereum Signed Message:\n" + str(len(msg_bytes))`, encode it and
prepend it to the message bytes, keccak-hash, sign, hex-encode. -/
def create_signature (keccak : List Nat → List Nat)
    (signHash : List Nat → String → List Nat)
    (private_key : String) (message : String) : String :=
  let msg_bytes := utf8Bytes message
  let header := "\x19Ethereum Signed Message:\n" ++ toString msg_bytes.length
  let prefixed_msg := utf8Bytes header ++ msg_bytes
  let msg_hash := keccak prefixed_msg
  let signature := signHash msg_hash private_key
  toHexPy signature

/-- Modelled from the spec's reference description of the signing algorithm
(spec.md §4.3 step 3), for comparison with `create_signature`: "prefix the
UTF-8 message bytes with the standard `\x19Ethereum Signed Message:\n` +
byteLength header, hash with keccak-256, then sign the hash with the account's
private key (recoverable ECDSA signature, hex-encoded)". -/
def ethPersonalSignReference (keccak : List Nat → List Nat)
    (signHash : List Nat → String → List Nat)
    (private_key : String) (message : String) : String :=
  let body := utf8Bytes message
  let headerBytes :=
    utf8Bytes ("\x19Ethereum Signed Message:\n" ++ toString body.length)
  toHexPy (signHash (keccak (headerBytes ++ body)) private_key)

/-- The consent message signed during `register` (api_client.py line 256). -/
def consentMessage (nonce_number : Int) : String :=
  "By signing this message you agree to the Terms and Conditions and Privacy Policy\n\nNONCE: "
    ++ toString nonce_number

/-- The JSON payload of the `users/onboarding` request (api_client.py lines
306-313): the sampled community ids and the `email` argument, whose Python
default is `None`. -/
structure OnboardingCall where
  communities : List String
  email : Option String
deriving DecidableEq, Repr

/-- `random.sample(population, k)`: raises
`ValueError("Sample larger than population or is negative")` when
`k > len(population)`; otherwise returns a sample of `k` distinct elements,
supplied here by the oracle `choice` (theorems constrain `choice` to an
actual `k`-element selection from the population). -/
def random_sample (population : List String) (k : Nat)
    (choice : List String) : Except PyExc (List String) :=
  if population.length < k then
    Except.error (PyExc.valueError "Sample larger than population or is negative")
  else Except.ok choice

/-- Responses of the remote API during one `register_account` workflow, for
the steps that the claims under scrutiny reach: the nonce, the token issued by
`auth/login` together with its unverified `exp` claim, the community ids
returned by `get_communities_ids`, and the `success` flag of the onboarding
response. -/
structure RemoteEnv where
  nonce : Int
  token : String
  tokenExp : Option Int
  communities : List String
  onboardingSuccess : Bool
deriving Repr

/-- The wallet produced by `create_wallet` (api_client.py lines 189-199). -/
structure WalletInfo where
  address : String
  private_key : String
  mnemonic : String
deriving DecidableEq, Repr

/-- `ETHERMAIL_DOMAIN` (ether.py line 23). -/
def ETHERMAIL_DOMAIN : String := "ethermail.io"

/-- What a completed `register_account` run produced and observably did. -/
structure RegisterResult where
  wallet_address : String
  token : String
  email : String
  onboarding_call : OnboardingCall
  onboarding_success : Bool
deriving DecidableEq, Repr

/-- `register_account` (ether.py lines 26-69) for a workflow whose remote
calls up to onboarding answer as `env` describes (nonce fetch, login and
community listing succeed — the claims below concern workflows that reach the
onboarding step). Control flow mirrors the source:

1. `create_wallet()` yields `wallet`;
2. `get_nonce(address.lower())` yields `env.nonce`;
3. `register(...)` yields `env.token`;
4. `set_auth_token(token, None, db)` — note the literal `None` account
   argument at line 40: if the fresh token's remaining validity were under
   3600 s the refresh branch would die on `None.wallet_address`;
5. `get_communities_ids()` yields `env.communities`;
6. line 43 calls `self.onboarding(communities_ids=random.sample(communities_ids, k=3))`:
   `random.sample` raises `ValueError` when fewer than 3 ids are available,
   and the `email` parameter of `onboarding` is left at its default `None`;
   an unsuccessful (`False`) response only logs "Error onboarding";
7. the account row is built with `email = f"{address}@{ETHERMAIL_DOMAIN}"`
   and committed.

Any exception escapes to `register_with_proxy`'s handler. -/
def register_account (now : Int) (env : RemoteEnv) (wallet : WalletInfo)
    (sampleChoice : List String) : Except PyExc RegisterResult :=
  let address := wallet.address
  let token := env.token
  match set_auth_token now env.tokenExp token token none with
  | Except.error e => Except.error e
  | Except.ok _ =>
    match random_sample env.communities 3 sampleChoice with
    | Except.error e => Except.error e
    | Except.ok sample =>
      Except.ok
        { wallet_address := address
          token := token
          email := address ++ "@" ++ ETHERMAIL_DOMAIN
          onboarding_call := { communities := sample, email := none }
          onboarding_success := env.onboardingSuccess }

/-- Scheduling state of one `register_with_proxy` work item (ether.py lines
81-90): not yet admitted by the `asyncio.Semaphore(10)`, admitted and running
(sleeping or executing `register_account`), or settled after running exactly
one of the two `except`-separated update blocks. -/
inductive ItemState where
  | notStarted
  | running
  | settled
deriving DecidableEq, Repr

def countRunning (l : List ItemState) : Nat :=
  l.countP (fun it => decide (it = ItemState.running))

def countSettled (l : List ItemState) : Nat :=
  l.countP (fun it => decide (it = ItemState.settled))

/-- State of one job during orchestration: the shared `RegistrationTask`
record and the scheduling state of each launched work item. -/
structure OrchState where
  task : RegistrationTask
  items : List ItemState
deriving Repr

/-- The launch state of the work-item phase of `process_registration_task`:
status already set to IN_PROGRESS (line 77), stored proxies already reordered
in place by the shuffle (line 95), and one pending work item per loop
iteration that passes the `i < len(proxies_for_reg)` guard (lines 97-99),
i.e. `min count (len shuffled)` items. (Building those coroutines in the
source actually dies on the missing `delay_sec` attribute — that defect is
captured by `process_registration_task` above; this relation models the
execution of the `register_with_proxy` bodies the loop is written to launch,
which is what the counter claims quantify over.) -/
def orchInit (task : RegistrationTask) (shuffled : List String) : OrchState :=
  { task := { task with status := TaskStatus.in_progress, proxies := shuffled }
    items := List.replicate (min task.count.toNat shuffled.length)
      ItemState.notStarted }

/-- One scheduler transition of the cooperative (single-threaded asyncio)
execution of `process_registration_task`'s work items:

* `enter`: the semaphore (capacity 10) admits a pending item;
* `settle_ok`: a running item returns from `register_account` and atomically
  runs lines 86-87 (`completed_count += 1; results.append(result)` — no await
  point separates them);
* `settle_err`: a running item's `register_account` raises and lines 89-90 run
  (`failed_count += 1; errors.append(str(e))`);
* `finish`: `asyncio.gather` returns once every item has settled and line 102
  sets the status to COMPLETED. Nothing ever assigns `TaskStatus.failed`. -/
inductive OrchStep : OrchState → OrchState → Prop where
  | enter (s : OrchState) (i : Nat) (hi : i < s.items.length)
      (hitem : s.items.get ⟨i, hi⟩ = ItemState.notStarted)
      (hsem : countRunning s.items < 10) :
      OrchStep s { s with items := s.items.set i ItemState.running }
  | settle_ok (s : OrchState) (i : Nat) (hi : i < s.items.length)
      (hitem : s.items.get ⟨i, hi⟩ = ItemState.running) (r : AccountResult) :
      OrchStep s
        { task := { s.task with
            completed_count := s.task.completed_count + 1
            results := s.task.results ++ [r] }
          items := s.items.set i ItemState.settled }
  | settle_err (s : OrchState) (i : Nat) (hi : i < s.items.length)
      (hitem : s.items.get ⟨i, hi⟩ = ItemState.running) (msg : String) :
      OrchStep s
        { task := { s.task with
            failed_count := s.task.failed_count + 1
            errors := s.task.errors ++ [msg] }
          items := s.items.set i ItemState.settled }
  | finish (s : OrchState)
      (hall : ∀ it ∈ s.items, it = ItemState.settled)
      (hst : s.task.status = TaskStatus.in_progress) :
      OrchStep s { s with task := { s.task with status := TaskStatus.completed } }

/-- All observation points during and after execution: reflexive-transitive
closure of the scheduler transitions. -/
def OrchReach : OrchState → OrchState → Prop :=
  Relation.ReflTransGen OrchStep

theorem countP_set_get (p : ItemState → Bool) (l : List ItemState) (i : Nat)
    (hi : i < l.length) (a : ItemState) :
    (l.set i a).countP p + (if p (l.get ⟨i, hi⟩) then 1 else 0) =
      l.countP p + (if p a then 1 else 0) := by
  induction l generalizing i with
  | nil => exact absurd hi (by simp)
  | cons x xs ih =>
    cases i with
    | zero =>
      simp [List.countP_cons]
      omega
    | succ n =>
      have hn : n < xs.length := by simpa using hi
      have hrec := ih n hn
      simp only [List.set, List.countP_cons, List.length_cons, List.get]
      omega

theorem countSettled_set_running (l : List ItemState) (i : Nat)
    (hi : i < l.length) (hget : l.get ⟨i, hi⟩ = ItemState.notStarted) :
    countSettled (l.set i ItemState.running) = countSettled l := by
  have h := countP_set_get (fun it => decide (it = ItemState.settled)) l i hi
    ItemState.running
  rw [hget] at h
  simpa [countSettled] using h

theorem countSettled_set_settled (l : List ItemState) (i : Nat)
    (hi : i < l.length) (hget : l.get ⟨i, hi⟩ = ItemState.running) :
    countSettled (l.set i ItemState.settled) = countSettled l + 1 := by
  have h := countP_set_get (fun it => decide (it = ItemState.settled)) l i hi
    ItemState.settled
  rw [hget] at h
  simpa [countSettled] using h

theorem countSettled_replicate (k : Nat) :
    countSettled (List.replicate k ItemState.notStarted) = 0 := by
  induction k with
  | zero => rfl
  | succ n ih => simp [countSettled, List.replicate, List.countP_cons] at ih ⊢

theorem countSettled_of_all (l : List ItemState)
    (h : ∀ it ∈ l, it = ItemState.settled) : countSettled l = l.length := by
  refine List.countP_eq_length.mpr ?_
  intro a ha
  simp [h a ha]

/-- Inductive invariant of the orchestration: the item count is fixed, the two
counters sum exactly to the number of settled items (each settle transition
increments exactly one of them, and none is lost), and a COMPLETED status
means every item has settled. -/
def OrchInv (n : Nat) (s : OrchState) : Prop :=
  s.items.length = n ∧
  s.task.completed_count + s.task.failed_count = (countSettled s.items : Int) ∧
  (s.task.status = TaskStatus.completed → ∀ it ∈ s.items, it = ItemState.settled)

theorem orchStep_inv {n : Nat} {s s' : OrchState} (h : OrchStep s s')
    (hinv : OrchInv n s) : OrchInv n s' := by
  obtain ⟨hlen, hsum, hcomp⟩ := hinv
  cases h with
  | enter i hi hitem hsem =>
    refine ⟨by simpa using hlen, ?_, ?_⟩
    · dsimp only
      rw [countSettled_set_running s.items i hi hitem]
      exact hsum
    · intro hc
      have hmem := hcomp hc _ (s.items.get_mem i hi)
      rw [hitem] at hmem
      exact absurd hmem (by simp)
  | settle_ok i hi hitem r =>
    refine ⟨by simpa using hlen, ?_, ?_⟩
    · dsimp only
      rw [countSettled_set_settled s.items i hi hitem]
      push_cast
      omega
    · intro hc
      have hmem := hcomp hc _ (s.items.get_mem i hi)
      rw [hitem] at hmem
      exact absurd hmem (by simp)
  | settle_err i hi hitem msg =>
    refine ⟨by simpa using hlen, ?_, ?_⟩
    · dsimp only
      rw [countSettled_set_settled s.items i hi hitem]
      push_cast
      omega
    · intro hc
      have hmem := hcomp hc _ (s.items.get_mem i hi)
      rw [hitem] at hmem
      exact absurd hmem (by simp)
  | finish hall hst =>
    exact ⟨hlen, hsum, fun _ => hall⟩

theorem orchReach_inv {n : Nat} {s0 s : OrchState} (h : OrchReach s0 s)
    (hinv : OrchInv n s0) : OrchInv n s := by
  induction h with
  | refl => exact hinv
  | tail _ hstep ih => exact orchStep_inv hstep ih

theorem orchStep_proxies {s s' : OrchState} (h : OrchStep s s') :
    s'.task.proxies = s.task.proxies := by
  cases h <;> rfl

theorem orchReach_proxies {s0 s : OrchState} (h : OrchReach s0 s) :
    s.task.proxies = s0.task.proxies := by
  induction h with
  | refl => rfl
  | tail _ hstep ih => rw [orchStep_proxies hstep, ih]

/-- C1: for every job, at every observation point during and after execution,
`completed_count + failed_count` equals the number of settled work items (each
work item increments exactly one of the two counters exactly once and no
increment is lost), never exceeds the job's requested count, and equals the
requested count once the status is COMPLETED. -/
theorem c1_counter_invariant (proxies shuffled : List String)
    (count createdAt : Int) (hc0 : 0 ≤ count)
    (hcl : count ≤ (shuffled.length : Int)) (s : OrchState)
    (hreach : OrchReach
      (orchInit (RegistrationTask.init proxies count createdAt) shuffled) s) :
    s.task.completed_count + s.task.failed_count = (countSettled s.items : Int) ∧
    s.task.completed_count + s.task.failed_count ≤ count ∧
    (s.task.status = TaskStatus.completed →
      s.task.completed_count + s.task.failed_count = count) := by
  have hlen0 :
      (orchInit (RegistrationTask.init proxies count createdAt)
        shuffled).items.length = count.toNat := by
    simp only [orchInit, RegistrationTask.init, List.length_replicate]
    omega
  have hinv : OrchInv count.toNat s := by
    refine orchReach_inv hreach ⟨hlen0, ?_, ?_⟩
    · simp [orchInit, RegistrationTask.init, countSettled_replicate]
    · intro hcon
      simp [orchInit, RegistrationTask.init] at hcon
  obtain ⟨hlen, hsum, hcomp⟩ := hinv
  have hle : countSettled s.items ≤ s.items.length := List.countP_le_length _
  refine ⟨hsum, ?_, ?_⟩
  · rw [hsum]
    omega
  · intro hc
    have hall := countSettled_of_all s.items (hcomp hc)
    rw [hsum, hall, hlen]
    omega

/-- Witness for `c1_counter_invariant`: the launch state of a job with one
proxy and `count = 1` satisfies the hypotheses, and its counters satisfy the
invariant. -/
theorem c1_counter_invariant_witness :
    ((0 : Int) ≤ 1 ∧ (1 : Int) ≤ ((["proxy1"] : List String).length : Int)) ∧
    (orchInit (RegistrationTask.init ["proxy1"] 1 0) ["proxy1"]).task.completed_count
        + (orchInit (RegistrationTask.init ["proxy1"] 1 0) ["proxy1"]).task.failed_count
      ≤ 1 :=
  ⟨⟨by decide, by decide⟩,
    (c1_counter_invariant ["proxy1"] ["proxy1"] 1 0 (by decide) (by decide) _
      Relation.ReflTransGen.refl).2.1⟩

/-- C4: when setting an auth token, the refresh (nonce fetch + sign +
register, with the new token persisted to the account row and installed in the
cookie) is performed if and only if the remaining validity read from the
unverified exp claim is strictly less than 3600 seconds; otherwise the
original token is installed and the account row is untouched. -/
theorem c4_token_refresh_iff (now e : Int) (token newToken : String)
    (acc : EtherMailAccountRec) (he : e ≠ 0) :
    ∃ r, set_auth_token now (some e) token newToken (some acc) = Except.ok r ∧
      (r.refreshed = true ↔ e - now < 3600) ∧
      (r.refreshed = true →
        r.account = some { acc with jwt_token := newToken, last_used := now } ∧
        r.cookie = "token=" ++ newToken ++ ";") ∧
      (r.refreshed = false →
        r.account = some acc ∧ r.cookie = "token=" ++ token ++ ";") := by
  by_cases hlt : e - now < 3600
  · simp only [set_auth_token, if_neg he, if_pos hlt]
    refine ⟨_, rfl, ?_, ?_, ?_⟩
    · simp [hlt]
    · intro h'
      exact ⟨rfl, rfl⟩
    · simp
  · simp only [set_auth_token, if_neg he, if_neg hlt]
    refine ⟨_, rfl, ?_, ?_, ?_⟩
    · simp [hlt]
    · simp
    · intro h'
      exact ⟨rfl, rfl⟩

/-- Witness for `c4_token_refresh_iff`: at `now = 0`, a token whose exp claim
leaves 3601 seconds is not refreshed, and one with 3599 seconds left is. -/
theorem c4_token_refresh_iff_witness :
    ((3601 : Int) ≠ 0 ∧
      ∃ r, set_auth_token 0 (some 3601) "t" "n"
            (some ⟨"0xa", "k", "t", 0⟩) = Except.ok r ∧
        (r.refreshed = true ↔ (3601 : Int) - 0 < 3600) ∧
        (r.refreshed = true →
          r.account = some ⟨"0xa", "k", "n", 0⟩ ∧ r.cookie = "token=" ++ "n" ++ ";") ∧
        (r.refreshed = false →
          r.account = some ⟨"0xa", "k", "t", 0⟩ ∧ r.cookie = "token=" ++ "t" ++ ";")) ∧
    ((3599 : Int) ≠ 0 ∧
      ∃ r, set_auth_token 0 (some 3599) "t" "n"
            (some ⟨"0xa", "k", "t", 0⟩) = Except.ok r ∧
        (r.refreshed = true ↔ (3599 : Int) - 0 < 3600) ∧
        (r.refreshed = true →
          r.account = some ⟨"0xa", "k", "n", 0⟩ ∧ r.cookie = "token=" ++ "n" ++ ";") ∧
        (r.refreshed = false →
          r.account = some ⟨"0xa", "k", "t", 0⟩ ∧ r.cookie = "token=" ++ "t" ++ ";")) :=
  ⟨⟨by decide, c4_token_refresh_iff 0 3601 "t" "n" ⟨"0xa", "k", "t", 0⟩ (by decide)⟩,
   ⟨by decide, c4_token_refresh_iff 0 3599 "t" "n" ⟨"0xa", "k", "t", 0⟩ (by decide)⟩⟩

/-- C6: `create_signature` is a pure function of the private key and message
(in this embedding it is a mathematical function of its arguments and of the
two deterministic library primitives, keccak-256 and RFC-6979 ECDSA hash
signing, so equal inputs give equal hex signatures in any call order), and for
every choice of those primitives its value coincides with the Ethereum
personal-message reference: UTF-8 message bytes prefixed with
`"\x19Ethereum Signed Message:\n" ++ byte length`, keccak-256 hashed, signed,
hex-encoded. -/
theorem c6_signature_matches_reference
    (keccak : List Nat → List Nat) (signHash : List Nat → String → List Nat)
    (private_key message : String) :
    create_signature keccak signHash private_key message =
      ethPersonalSignReference keccak signHash private_key message := rfl

/-- C10: for every job id known to the store, the polling snapshot carries
`results` exactly when the job is COMPLETED (and is `none` for PENDING and
IN_PROGRESS jobs whatever the counters say), carries `errors` exactly when at
least one error has been recorded, and reports
`in_progress = total - (completed + failed)`. -/
theorem c10_snapshot_shape (mgr : TaskManager) (task_id : String)
    (task : RegistrationTask) (hget : mgr.get_task task_id = some task) :
    ∃ resp, get_task_status mgr task_id = Except.ok resp ∧
      (task.status = TaskStatus.completed → resp.results = some task.results) ∧
      (task.status ≠ TaskStatus.completed → resp.results = none) ∧
      (resp.errors = none ↔ task.errors = []) ∧
      (task.errors ≠ [] → resp.errors = some task.errors) ∧
      resp.status = task.status.value ∧
      resp.total = task.count ∧
      resp.completed = task.completed_count ∧
      resp.failed = task.failed_count ∧
      resp.in_progress =
        task.count - (task.completed_count + task.failed_count) := by
  simp only [get_task_status, hget]
  refine ⟨_, rfl, ?_, ?_, ?_, ?_, rfl, rfl, rfl, rfl, rfl⟩
  · intro hc
    simp [hc]
  · intro hc
    simp [hc]
  · by_cases herr : task.errors = [] <;> simp [herr]
  · intro herr
    simp [herr]

/-- Witness for `c10_snapshot_shape`: the freshly created single-proxy job. -/
theorem c10_snapshot_shape_witness :
    ((TaskManager.create_task ⟨[], 0⟩ ["proxy1"] 1 0).1.get_task "task_1" =
        some (RegistrationTask.init ["proxy1"] 1 0)) ∧
    ∃ resp,
      get_task_status (TaskManager.create_task ⟨[], 0⟩ ["proxy1"] 1 0).1 "task_1" =
          Except.ok resp ∧
      ((RegistrationTask.init ["proxy1"] 1 0).status = TaskStatus.completed →
        resp.results = some (RegistrationTask.init ["proxy1"] 1 0).results) ∧
      ((RegistrationTask.init ["proxy1"] 1 0).status ≠ TaskStatus.completed →
        resp.results = none) ∧
      (resp.errors = none ↔ (RegistrationTask.init ["proxy1"] 1 0).errors = []) ∧
      ((RegistrationTask.init ["proxy1"] 1 0).errors ≠ [] →
        resp.errors = some (RegistrationTask.init ["proxy1"] 1 0).errors) ∧
      resp.status = (RegistrationTask.init ["proxy1"] 1 0).status.value ∧
      resp.total = (RegistrationTask.init ["proxy1"] 1 0).count ∧
      resp.completed = (RegistrationTask.init ["proxy1"] 1 0).completed_count ∧
      resp.failed = (RegistrationTask.init ["proxy1"] 1 0).failed_count ∧
      resp.in_progress =
        (RegistrationTask.init ["proxy1"] 1 0).count -
          ((RegistrationTask.init ["proxy1"] 1 0).completed_count +
            (RegistrationTask.init ["proxy1"] 1 0).failed_count) :=
  ⟨by decide,
   c10_snapshot_shape (TaskManager.create_task ⟨[], 0⟩ ["proxy1"] 1 0).1 "task_1"
     (RegistrationTask.init ["proxy1"] 1 0) (by decide)⟩

/-- A fresh task manager, as constructed at module import (ether.py line 22). -/
def mgrEmpty : TaskManager := { tasks := [], task_counter := 0 }

/-- The store and task id produced by `POST /create_account` with proxy
`"proxy1"` on a fresh manager — the only route through which a job can
actually be created, since `create_accounts` dies before `create_task`. -/
def singleRun : TaskManager × String := create_account mgrEmpty "proxy1" 0

/-- C2 (code bug): the job created by `POST /create_account` is marked
IN_PROGRESS and then `process_registration_task` dies with `AttributeError`
on `task.delay_sec` (ether.py line 99) before launching any work item or
reaching line 102, so the job never advances to COMPLETED — contradicting the
claim that every job handed to the orchestrator eventually reaches COMPLETED.
(The status indeed never regresses and FAILED is never assigned: it simply
stays IN_PROGRESS forever.) The shuffle of the one-element proxy list is
necessarily the list itself. -/
theorem c2_job_never_completes :
    (process_registration_task singleRun.1 singleRun.2 ["proxy1"]).2 =
        some (PyExc.attributeError "delay_sec") ∧
    ((process_registration_task singleRun.1 singleRun.2 ["proxy1"]).1.get_task
        singleRun.2).map RegistrationTask.status =
      some TaskStatus.in_progress := by decide

/-- C3 (code bug): with perfectly valid arguments (one proxy, `count = 1`)
the `create_accounts` route allocates no job and returns no id — evaluating
`request.delay_sec` on a request model that declares no such field raises
`AttributeError` before `task_manager.create_task` is entered (whose
two-parameter signature would reject the third positional argument anyway),
so the store is unchanged. The invalid cases are rejected as the claim says:
a non-positive count by the pydantic `gt=0` constraint and an excessive count
by the explicit 400, both before any job is created. -/
theorem c3_create_accounts_never_creates :
    create_accounts mgrEmpty { proxies := ["proxy1"], count := 1 } =
        Except.error (HttpFail.unhandled (PyExc.attributeError "delay_sec")) ∧
    create_accounts mgrEmpty { proxies := ["proxy1"], count := 0 } =
        Except.error HttpFail.validationError ∧
    create_accounts mgrEmpty { proxies := ["proxy1"], count := 2 } =
        Except.error (HttpFail.httpException 400
          "Not enough proxies for requested account count") :=
  ⟨rfl, rfl, rfl⟩

/-- The sleep a work item performs after being admitted by the semaphore and
before starting work (ether.py line 84): `asyncio.sleep(delay_sec / 0.9)`, a
fixed scaling of the delay argument that ignores the launch index
`number_task`. -/
def register_with_proxy_sleep (delay_sec : ℚ) (number_task : Nat) : ℚ :=
  delay_sec / (9 / 10)

/-- C9 (code bug): the sleep expression at ether.py line 84 is indeed
`delay_sec / 0.9`, identical for every launch index — but no work item of any
creatable job ever performs it, because no job can carry a configured delay:
`RegistrationTask.__init__` stores no `delay_sec` and `create_task` accepts
none, so `process_registration_task` raises `AttributeError` on
`task.delay_sec` while building the very first work item, before any sleep. -/
theorem c9_uniform_sleep_never_runs :
    (∀ d : ℚ, ∀ i j : Nat,
      register_with_proxy_sleep d i = register_with_proxy_sleep d j) ∧
    (process_registration_task singleRun.1 singleRun.2 ["proxy1"]).2 =
      some (PyExc.attributeError "delay_sec") ∧
    (singleRun.1.get_task singleRun.2).map RegistrationTask.completed_count =
      some 0 :=
  ⟨fun d i j => rfl, by decide, by decide⟩

/-- A job with two proxies stored in a known order. -/
def mgrTwo : TaskManager × String :=
  TaskManager.create_task mgrEmpty ["alpha", "beta"] 2 0

/-- C7 (counterexample): `proxies_for_reg = task.proxies` (ether.py line 94)
aliases the stored list and `random.shuffle(proxies_for_reg)` (line 95)
permutes it in place, so when the shuffle produces the reversed order the
job's stored `proxies` field — observed through the task store — has changed
order, refuting immutability of the sequence after creation. -/
theorem c7_counterexample :
    List.Perm ["beta", "alpha"] ["alpha", "beta"] ∧
    (mgrTwo.1.get_task mgrTwo.2).map RegistrationTask.proxies =
        some ["alpha", "beta"] ∧
    ((process_registration_task mgrTwo.1 mgrTwo.2 ["beta", "alpha"]).1.get_task
        mgrTwo.2).map RegistrationTask.proxies = some ["beta", "alpha"] ∧
    (["beta", "alpha"] : List String) ≠ ["alpha", "beta"] := by decide

/-- C7 (amended): the multiset of the job's stored proxies is preserved — the
orchestrator's in-place shuffle can only permute the stored list, and no
transition of the work-item execution ever touches the proxies field — but
the order of the stored sequence is not preserved. -/
theorem c7_proxies_multiset_preserved (mgr : TaskManager) (task_id : String)
    (task : RegistrationTask) (shuffled : List String)
    (hget : mgr.get_task task_id = some task)
    (hperm : shuffled.Perm task.proxies) :
    (∃ task',
      (process_registration_task mgr task_id shuffled).1.get_task task_id =
          some task' ∧
      task'.proxies.Perm task.proxies) ∧
    (∀ s s' : OrchState, OrchReach s s' → s'.task.proxies = s.task.proxies) := by
  constructor
  · unfold process_registration_task
    rw [hget]
    by_cases hcond : 0 < task.count ∧ shuffled ≠ []
    · simp only [if_pos hcond]
      exact ⟨_, get_task_set mgr task_id _, hperm⟩
    · simp only [if_neg hcond]
      exact ⟨_, get_task_set mgr task_id _, hperm⟩
  · intro s s' h
    exact orchReach_proxies h

/-- Witness for `c7_proxies_multiset_preserved`: the two-proxy job with the
reversed shuffle. -/
theorem c7_proxies_multiset_preserved_witness :
    (mgrTwo.1.get_task mgrTwo.2 =
        some (RegistrationTask.init ["alpha", "beta"] 2 0) ∧
      List.Perm ["beta", "alpha"]
        (RegistrationTask.init ["alpha", "beta"] 2 0).proxies) ∧
    ((∃ task',
        (process_registration_task mgrTwo.1 mgrTwo.2 ["beta", "alpha"]).1.get_task
            mgrTwo.2 = some task' ∧
        task'.proxies.Perm (RegistrationTask.init ["alpha", "beta"] 2 0).proxies) ∧
      (∀ s s' : OrchState, OrchReach s s' → s'.task.proxies = s.task.proxies)) :=
  ⟨⟨by decide, by decide⟩,
    c7_proxies_multiset_preserved mgrTwo.1 mgrTwo.2
      (RegistrationTask.init ["alpha", "beta"] 2 0) ["beta", "alpha"]
      (by decide) (by decide)⟩

/-- An upstream that answers every request attempt with HTTP 500. -/
def allServerError : Nat → HttpOutcome :=
  fun i => HttpOutcome.response 500 true "err"

/-- C5 (counterexample): with every attempt answering HTTP 500, the very
first attempt of a `get_nonce` call already raises
`RegistrationError("HTTP 500: err")`, yet the client layer performs 9 physical
request attempts in total before surfacing an error — the `_request` decorator
retries the `RegistrationError` (its predicate `retry_if_exception_type((
TimeoutException, ConnectError, Exception))` matches every exception) and the
method-level decorator then retries the whole `_request` cycle, 3 × 3 times. -/
theorem c5_counterexample :
    _requestOnce (allServerError 0) =
        Except.error (PyExc.registrationError "HTTP 500: err") ∧
    (get_nonceRun allServerError).2 = 9 ∧
    ¬ (get_nonceRun allServerError).2 ≤ 3 ∧
    (get_nonceRun allServerError).1 =
      Except.error (PyExc.retryError (PyExc.retryError
        (PyExc.registrationError "HTTP 500: err"))) :=
  ⟨rfl, by decide, by decide, rfl⟩

theorem retryCallSt_succ {α : Type} (pred : PyExc → Bool)
    (f : Nat → Except PyExc α × Nat) (b i : Nat) :
    retryCallSt pred f (b + 1) i =
      match f i with
      | (Except.ok a, j) => (Except.ok a, j)
      | (Except.error e, j) =>
        if pred e then
          if b = 0 then (Except.error (PyExc.retryError e), j)
          else retryCallSt pred f b j
        else (Except.error e, j) := rfl

theorem retryCallSt_broad_next_le {α : Type} (f : Nat → Except PyExc α × Nat)
    (c : Nat) (hf : ∀ i, (f i).2 ≤ i + c) :
    ∀ b i, (retryCallSt broadRetryPredicate f b i).2 ≤ i + b * c := by
  intro b
  induction b with
  | zero =>
    intro i
    simp [retryCallSt]
  | succ n ih =>
    intro i
    have hj := hf i
    cases hfe : f i with
    | mk res j =>
      rw [hfe] at hj
      rw [retryCallSt_succ broadRetryPredicate f n i, hfe]
      cases res with
      | ok a =>
        dsimp only
        have hs : (n + 1) * c = n * c + c := Nat.succ_mul n c
        rw [hs]
        generalize n * c = K
        omega
      | error e =>
        dsimp only
        rw [if_pos (show broadRetryPredicate e = true from rfl)]
        cases n with
        | zero =>
          rw [if_pos rfl]
          have hone : (0 + 1) * c = c := by simp
          rw [hone]
          omega
        | succ m =>
          rw [if_neg (Nat.succ_ne_zero m)]
          have h2 := ih j
          have hs : (m + 1 + 1) * c = (m + 1) * c + c := Nat.succ_mul (m + 1) c
          rw [hs]
          generalize hG : (m + 1) * c = K at h2 ⊢
          omega

/-- C5 (amended): each tenacity layer makes at most 3 attempts, but a raised
`RegistrationError` is retried like any other exception (the predicate matches
`Exception`), so the `_request` decorator and the method-level decorator
compound: a single `_request` call performs at most 3 physical HTTP attempts,
and a single `get_nonce` call at most 9, before the error is surfaced. -/
theorem c5_attempt_budget (oracle : Nat → HttpOutcome) :
    (∀ start, (_requestRun oracle start).2 ≤ start + 3) ∧
    (get_nonceRun oracle).2 ≤ 9 := by
  have h1 : ∀ start, (_requestRun oracle start).2 ≤ start + 3 := by
    intro start
    have h := retryCallSt_broad_next_le
      (fun i => (_requestOnce (oracle i), i + 1)) 1 (fun i => by simp) 3 start
    simpa [_requestRun] using h
  refine ⟨h1, ?_⟩
  have h := retryCallSt_broad_next_le (fun i => _requestRun oracle i) 3
    (fun i => h1 i) 3 0
  simpa [get_nonceRun] using h

/-- Remote responses where the community listing returns only two ids. -/
def envTwo : RemoteEnv :=
  { nonce := 1, token := "tok", tokenExp := some 100000,
    communities := ["c1", "c2"], onboardingSuccess := true }

/-- Remote responses with three community ids and an unsuccessful (`False`)
onboarding response. -/
def envThree : RemoteEnv :=
  { nonce := 1, token := "tok", tokenExp := some 100000,
    communities := ["c1", "c2", "c3"], onboardingSuccess := false }

def walletA : WalletInfo :=
  { address := "0xabc", private_key := "0xkey", mnemonic := "m" }

/-- C8 (counterexample): with only two community ids fetched, the workflow
does not onboard with "all of them" — `random.sample(communities_ids, k=3)`
(ether.py line 43) raises `ValueError` and the whole account creation fails;
and even with three ids available, the onboarding payload carries
`email = None` (the `email` parameter keeps its default), not the derived
alias `0xabc@ethermail.io`. -/
theorem c8_counterexample :
    register_account 0 envTwo walletA [] =
        Except.error
          (PyExc.valueError "Sample larger than population or is negative") ∧
    register_account 0 envThree walletA ["c1", "c2", "c3"] =
        Except.ok
          { wallet_address := "0xabc", token := "tok",
            email := "0xabc@ethermail.io",
            onboarding_call := { communities := ["c1", "c2", "c3"], email := none },
            onboarding_success := false } ∧
    (none : Option String) ≠ some "0xabc@ethermail.io" :=
  ⟨rfl, rfl, by decide⟩

/-- C8 (amended): a workflow that reaches the onboarding step submits a
random sample of exactly 3 community ids with `email = None` (the derived
alias is never sent); when fewer than 3 ids are available the sampling raises
`ValueError` and the workflow aborts as a failed item; and an unsuccessful
(`False`) onboarding response does not abort the workflow — the result is
`ok` with the account recorded whatever `onboardingSuccess` is. -/
theorem c8_onboarding_behaviour (now : Int) (env : RemoteEnv)
    (wallet : WalletInfo) (choice : List String) (e : Int)
    (hexp : env.tokenExp = some e) (he : e ≠ 0) (hfresh : 3600 ≤ e - now)
    (hlen : choice.length = 3) (hsub : ∀ x ∈ choice, x ∈ env.communities) :
    (3 ≤ env.communities.length →
      register_account now env wallet choice =
        Except.ok
          { wallet_address := wallet.address, token := env.token,
            email := wallet.address ++ "@" ++ ETHERMAIL_DOMAIN,
            onboarding_call := { communities := choice, email := none },
            onboarding_success := env.onboardingSuccess }) ∧
    (env.communities.length < 3 →
      register_account now env wallet choice =
        Except.error
          (PyExc.valueError "Sample larger than population or is negative")) := by
  have hnl : ¬ (e - now < 3600) := by omega
  constructor
  · intro h3
    have hns : ¬ (env.communities.length < 3) := by omega
    simp [register_account, set_auth_token, random_sample, hexp, he, hnl, hns]
  · intro h3
    simp [register_account, set_auth_token, random_sample, hexp, he, hnl, h3]

/-- Witness for `c8_onboarding_behaviour`: the three-community environment
with a failing onboarding response still records the account. -/
theorem c8_onboarding_behaviour_witness :
    (envThree.tokenExp = some 100000 ∧ (100000 : Int) ≠ 0 ∧
      (3600 : Int) ≤ 100000 - 0 ∧
      (["c1", "c2", "c3"] : List String).length = 3 ∧
      (∀ x ∈ (["c1", "c2", "c3"] : List String), x ∈ envThree.communities)) ∧
    (3 ≤ envThree.communities.length →
      register_account 0 envThree walletA ["c1", "c2", "c3"] =
        Except.ok
          { wallet_address := walletA.address, token := envThree.token,
            email := walletA.address ++ "@" ++ ETHERMAIL_DOMAIN,
            onboarding_call :=
              { communities := ["c1", "c2", "c3"], email := none },
            onboarding_success := envThree.onboardingSuccess }) ∧
    (envThree.communities.length < 3 →
      register_account 0 envThree walletA ["c1", "c2", "c3"] =
        Except.error
          (PyExc.valueError "Sample larger than population or is negative")) :=
  ⟨⟨rfl, by decide, by decide, by decide, by decide⟩,
    (c8_onboarding_behaviour 0 envThree walletA ["c1", "c2", "c3"] 100000
      rfl (by decide) (by decide) (by decide) (by decide)).1,
    (c8_onboarding_behaviour 0 envThree walletA ["c1", "c2", "c3"] 100000
      rfl (by decide) (by decide) (by decide) (by decide)).2⟩

end Ethermail
